import Mathlib

/-!
Shallow embedding of the sanlock core (paxos lease engine in paxos_lease.c,
supervisor fencing in main.c) used to check the specification claims.

Machine integers (uint64, uint32) are modelled as Nat; the one place where
64-bit wraparound is observable to a claim (the our_mbal computation in
paxos_lease_acquire) applies an explicit mod 2^64.  On-disk records are
structures of Nat fields; names are Nat codes.  Disk I/O is modelled by an
explicit DiskState value threaded through the operations; concurrent writes
by other hosts appear as interference functions applied at the points where
the code re-reads the disk.
-/

set_option autoImplicit false

deriving instance DecidableEq for Except

/-- LEASE_FREE: a leader or delta timestamp of 0 means the lease is unowned
(spec section 3). -/
def LEASE_FREE : Nat := 0

/-- Modelled from the spec: the sanlock return-value domain (sanlock_rv.h is
not under src/).  Section 7 of the spec lists the error taxonomy as distinct
negative integers in a single domain; we model the codes this development
needs as distinct constructors of an inductive type, with ok standing for
the nonnegative SANLK_OK success value. -/
inductive SanlkRv where
  | ok
  | dblockChecksum
  | dblockMbal
  | dblockLver
  | dblockRead
  | dblockWrite
  | leaderRead
  | leaderWrite
  | leaderMagic
  | leaderVersion
  | leaderLockspace
  | leaderResource
  | leaderNumhosts
  | leaderChecksum
  | releaseLver
  | releaseOwner
  | acquireOther
  deriving DecidableEq, Repr

/-- struct paxos_dblock: per-host Paxos ballot state, one sector per host
(fields in source order; all uint64 except flags/checksum uint32). -/
structure paxos_dblock where
  mbal : Nat
  bal : Nat
  inp : Nat
  inp2 : Nat
  inp3 : Nat
  lver : Nat
  flags : Nat
  checksum : Nat
  deriving DecidableEq, Repr

/-- The all-zero dblock, as found on a freshly initialized lease area. -/
def zero_dblock : paxos_dblock := ⟨0, 0, 0, 0, 0, 0, 0, 0⟩

/-- Modelled from the spec: CRC32C over the serialized dblock excluding its
checksum field (crc32c.c is not under src/; DBLOCK_CHECKSUM_LEN covers the
fields before checksum).  The code only ever compares a stored checksum with
a recomputed one, so any fixed function of the covered fields is a faithful
stand-in. -/
def dblock_checksum (pd : paxos_dblock) : Nat :=
  pd.mbal + 3 * pd.bal + 5 * pd.inp + 7 * pd.inp2 + 11 * pd.inp3 +
    13 * pd.lver + 17 * pd.flags

/-- A dblock as written by write_dblock: the checksum field holds the
checksum computed over the serialized record. -/
def with_dblock_checksum (pd : paxos_dblock) : paxos_dblock :=
  { pd with checksum := dblock_checksum pd }

/-- verify_dblock (paxos_lease.c): accept an all-zero dblock without
comparing checksums; otherwise fail with DBLOCK_CHECKSUM when the stored and
recomputed checksums differ. -/
def verify_dblock (pd : paxos_dblock) (checksum : Nat) : SanlkRv :=
  if pd.checksum = 0 ∧ pd.mbal = 0 ∧ pd.bal = 0 ∧ pd.inp = 0 ∧ pd.lver = 0 then
    SanlkRv.ok
  else if pd.checksum ≠ checksum then
    SanlkRv.dblockChecksum
  else
    SanlkRv.ok

/-- The condition of the verify_dblock fast path: checksum, mbal, bal, inp
and lver all zero (inp2, inp3 and flags are not inspected). -/
def dblock_all_zero (pd : paxos_dblock) : Prop :=
  pd.checksum = 0 ∧ pd.mbal = 0 ∧ pd.bal = 0 ∧ pd.inp = 0 ∧ pd.lver = 0

instance (pd : paxos_dblock) : Decidable (dblock_all_zero pd) := by
  unfold dblock_all_zero; infer_instance

/-- The our_mbal computation of paxos_lease_acquire (uint64 arithmetic, so
the sum is reduced mod 2^64 as on the machine): host_id when no mbal was
observed, otherwise one max_hosts block above the largest observed mbal,
offset by host_id. -/
def choose_mbal (max_mbal host_id max_hosts : Nat) : Nat :=
  if max_mbal = 0 then
    host_id
  else
    ((max_mbal - max_mbal % max_hosts) + max_hosts + host_id) % 2 ^ 64

/-- The write loop of paxos_lease_init (paxos_lease.c lines 2491-2505) with
the per-disk write outcomes abstracted as the input list: write each disk in
order and return the first failing write result; return 0 when every write
succeeded. -/
def paxos_lease_init_writes : List Int → Int
  | [] => 0
  | rv :: rest => if rv < 0 then rv else paxos_lease_init_writes rest

/-- Modelled from the spec: majority_disks (defined outside src/) tests a
strict majority quorum of num_disks (sections 4.4 and 8: majority-quorum for
multi-disk, 2-of-3 in the scenario seeds, N=1 degenerate). -/
def majority_disks (num_disks num : Nat) : Bool :=
  decide (num_disks / 2 + 1 ≤ num)

/-- The write loop of write_new_leader with per-disk outcomes abstracted as
the input list: the write succeeds when a majority of the per-disk writes
succeeded (a negative outcome only skips that disk). -/
def write_new_leader_ok (writes : List Int) : Bool :=
  majority_disks writes.length (writes.countP fun rv => decide (0 ≤ rv))

/-- C9: verify_dblock accepts, without comparing checksums, any dblock whose
checksum, mbal, bal, inp and lver fields are all zero, whatever checksum was
computed; and it returns DBLOCK_CHECKSUM exactly for a dblock that is not
all-zero in those fields and whose stored checksum differs from the
recomputed one. -/
theorem verify_dblock_spec (pd : paxos_dblock) (checksum : Nat) :
    (dblock_all_zero pd → verify_dblock pd checksum = SanlkRv.ok) ∧
    (verify_dblock pd checksum = SanlkRv.dblockChecksum ↔
      ¬ dblock_all_zero pd ∧ pd.checksum ≠ checksum) := by
  unfold verify_dblock dblock_all_zero
  constructor
  · intro h
    simp [h]
  · constructor
    · intro h
      by_cases hz : pd.checksum = 0 ∧ pd.mbal = 0 ∧ pd.bal = 0 ∧ pd.inp = 0 ∧ pd.lver = 0
      · simp [hz] at h
      · by_cases hc : pd.checksum = checksum
        · simp [hz, hc] at h
        · exact ⟨hz, hc⟩
    · rintro ⟨hz, hc⟩
      simp [hz, hc]

/-- Witness for verify_dblock_spec at a concrete all-zero dblock and a
concrete nonzero computed checksum. -/
theorem verify_dblock_spec_witness :
    verify_dblock zero_dblock 77 = SanlkRv.ok :=
  (verify_dblock_spec zero_dblock 77).1 (by decide)

/-- C10: paxos_lease_init returns 0 exactly when the lease-area write
succeeded on every disk; if some write fails while all earlier ones
succeeded, the error of that first failing write is returned.  By contrast a
leader write (write_new_leader, used by acquire and release) succeeds on the
same outcomes [-5, 0, 0] because a 2-of-3 majority of disks took the
write. -/
theorem paxos_lease_init_writes_spec :
    (∀ writes : List Int,
      (paxos_lease_init_writes writes = 0 ↔ ∀ rv ∈ writes, 0 ≤ rv)) ∧
    (∀ (pre post : List Int) (rv : Int), (∀ x ∈ pre, 0 ≤ x) → rv < 0 →
      paxos_lease_init_writes (pre ++ rv :: post) = rv) ∧
    (paxos_lease_init_writes [-5, 0, 0] = -5 ∧
      write_new_leader_ok [-5, 0, 0] = true) := by
  refine ⟨?_, ?_, by decide⟩
  · intro writes
    induction writes with
    | nil => simp [paxos_lease_init_writes]
    | cons rv rest ih =>
      by_cases h : rv < 0
      · simp only [paxos_lease_init_writes, if_pos h]
        constructor
        · intro h0
          omega
        · intro hall
          have := hall rv (by simp)
          omega
      · simp only [paxos_lease_init_writes, if_neg h, List.mem_cons]
        rw [ih]
        constructor
        · intro hall x hx
          rcases hx with hx | hx
          · omega
          · exact hall x hx
        · intro hall x hx
          exact hall x (Or.inr hx)
  · intro pre post rv hpre hrv
    induction pre with
    | nil => simp [paxos_lease_init_writes, hrv]
    | cons x rest ih =>
      have hx : 0 ≤ x := hpre x (by simp)
      simp only [List.cons_append, paxos_lease_init_writes, if_neg (by omega : ¬ x < 0)]
      exact ih fun y hy => hpre y (by simp [hy])

/-- Witness for paxos_lease_init_writes_spec: the first failing write of a
concrete outcome list is propagated. -/
theorem paxos_lease_init_writes_spec_witness :
    paxos_lease_init_writes [0, -7, 3] = -7 :=
  paxos_lease_init_writes_spec.2.1 [0] [3] (-7) (by decide) (by decide)

/-- C2 counterexample: the our_mbal computation is uint64 arithmetic, so at
max_mbal = 2^64 - 1 (with host_id 1 of max_hosts 2000) the sum wraps to 385,
which is neither greater than max_mbal nor congruent to host_id modulo
max_hosts. -/
theorem choose_mbal_wraps :
    choose_mbal (2 ^ 64 - 1) 1 2000 = 385 ∧
    ¬ (2 ^ 64 - 1 < choose_mbal (2 ^ 64 - 1) 1 2000) ∧
    ¬ (choose_mbal (2 ^ 64 - 1) 1 2000 % 2000 = 1 % 2000) := by
  refine ⟨by decide, ?_, ?_⟩ <;> decide

/-- C2 as amended: when the sum floor(max_mbal / max_hosts) * max_hosts +
max_hosts + host_id does not overflow uint64, the chosen our_mbal equals
host_id for max_mbal = 0 and that sum otherwise, and for every host_id in
1..max_hosts it is strictly greater than max_mbal and congruent to host_id
modulo max_hosts. -/
theorem choose_mbal_spec (max_mbal host_id max_hosts : Nat)
    (h1 : 1 ≤ host_id) (h2 : host_id ≤ max_hosts)
    (hov : max_mbal / max_hosts * max_hosts + max_hosts + host_id < 2 ^ 64) :
    choose_mbal max_mbal host_id max_hosts =
      (if max_mbal = 0 then host_id
       else max_mbal / max_hosts * max_hosts + max_hosts + host_id) ∧
    max_mbal < choose_mbal max_mbal host_id max_hosts ∧
    choose_mbal max_mbal host_id max_hosts % max_hosts = host_id % max_hosts := by
  have hmh : 0 < max_hosts := lt_of_lt_of_le h1 h2
  by_cases h0 : max_mbal = 0
  · subst h0
    refine ⟨by simp [choose_mbal], by simpa [choose_mbal] using h1, by simp [choose_mbal]⟩
  · have hdm := Nat.div_add_mod' max_mbal max_hosts
    have hml : max_mbal % max_hosts < max_hosts := Nat.mod_lt _ hmh
    have hsub : max_mbal - max_mbal % max_hosts = max_mbal / max_hosts * max_hosts := by
      omega
    have hval : choose_mbal max_mbal host_id max_hosts =
        max_mbal / max_hosts * max_hosts + max_hosts + host_id := by
      unfold choose_mbal
      rw [if_neg h0, hsub]
      exact Nat.mod_eq_of_lt hov
    refine ⟨by rw [hval, if_neg h0], ?_, ?_⟩
    · rw [hval]
      omega
    · rw [hval]
      have : max_mbal / max_hosts * max_hosts + max_hosts + host_id =
          host_id + (max_mbal / max_hosts + 1) * max_hosts := by ring
      rw [this, Nat.add_mul_mod_self_right]

/-- Witness for choose_mbal_spec: with max_mbal 14002, host_id 2 and
max_hosts 2000 the ballot number chosen is 16002, above 14002 and congruent
to 2 mod 2000. -/
theorem choose_mbal_spec_witness :
    choose_mbal 14002 2 2000 =
      (if (14002 : Nat) = 0 then 2 else 14002 / 2000 * 2000 + 2000 + 2) ∧
    14002 < choose_mbal 14002 2 2000 ∧
    choose_mbal 14002 2 2000 % 2000 = 2 % 2000 :=
  choose_mbal_spec 14002 2 2000 (by decide) (by decide) (by decide)

/-- Modelled from the spec: the paxos leader magic constant (the header with
its numeric value is not under src/; only distinctness from the CLEAR magic
matters to the embedded code). -/
def PAXOS_DISK_MAGIC : Nat := 0x06152010

/-- Modelled from the spec: the magic of a cleared paxos lease area. -/
def PAXOS_DISK_CLEAR : Nat := 0x11282016

/-- Modelled from the spec: the paxos on-disk major version, held in the
upper 16 bits of the version field. -/
def PAXOS_DISK_VERSION_MAJOR : Nat := 0x00060000

/-- Modelled from the spec: the LFL_SHORT_HOLD leader flag bit (numeric
value not under src/; modelled as bit 0 of the flags word). -/
def LFL_SHORT_HOLD : Nat := 1

/-- Clear the LFL_SHORT_HOLD bit of a leader flags word. -/
def clear_short_hold (flags : Nat) : Nat := 2 * (flags / 2)

/-- struct leader_record: the canonical state of a resource lease (fields in
spec section 3 order; the two 48-byte names are modelled as Nat codes). -/
structure leader_record where
  magic : Nat
  version : Nat
  flags : Nat
  sector_size : Nat
  num_hosts : Nat
  max_hosts : Nat
  owner_id : Nat
  owner_generation : Nat
  lver : Nat
  timestamp : Nat
  space_name : Nat
  resource_name : Nat
  write_id : Nat
  write_generation : Nat
  write_timestamp : Nat
  checksum : Nat
  deriving DecidableEq, Repr

/-- Modelled from the spec: CRC32C over the serialized leader record
excluding its checksum field (crc32c.c is not under src/); as for dblocks,
only equality of stored and recomputed values is ever used. -/
def leader_checksum (lr : leader_record) : Nat :=
  lr.magic + 3 * lr.version + 5 * lr.flags + 7 * lr.sector_size +
    11 * lr.num_hosts + 13 * lr.max_hosts + 17 * lr.owner_id +
    19 * lr.owner_generation + 23 * lr.lver + 29 * lr.timestamp +
    31 * lr.space_name + 37 * lr.resource_name + 41 * lr.write_id +
    43 * lr.write_generation + 47 * lr.write_timestamp

/-- A leader record as written by write_leader: checksum recomputed over the
serialized record. -/
def with_leader_checksum (lr : leader_record) : leader_record :=
  { lr with checksum := leader_checksum lr }

/-- verify_leader (paxos_lease.c _verify_leader): reject a cleared area,
then check magic, major version, lockspace and resource names, that the
record covers our host_id, and the checksum. -/
def verify_leader (lockspace_name resource_name host_id : Nat)
    (lr : leader_record) : SanlkRv :=
  if lr.magic = PAXOS_DISK_CLEAR then SanlkRv.leaderMagic
  else if lr.magic ≠ PAXOS_DISK_MAGIC then SanlkRv.leaderMagic
  else if lr.version / 2 ^ 16 * 2 ^ 16 ≠ PAXOS_DISK_VERSION_MAJOR then SanlkRv.leaderVersion
  else if lr.space_name ≠ lockspace_name then SanlkRv.leaderLockspace
  else if lr.resource_name ≠ resource_name then SanlkRv.leaderResource
  else if lr.num_hosts < host_id then SanlkRv.leaderNumhosts
  else if lr.checksum ≠ leader_checksum lr then SanlkRv.leaderChecksum
  else SanlkRv.ok

/-- The on-disk lease area of one resource on one disk: the leader sector
and the per-host dblock sectors (index q holds the dblock of host q+1; the
request sector carries no lease state and is omitted). -/
structure DiskState where
  leader : leader_record
  dblocks : List paxos_dblock
  deriving DecidableEq, Repr

/-- paxos_lease_leader_read for the single-disk case (_leader_read_one):
read the leader sector and verify it. -/
def paxos_lease_leader_read (lockspace_name resource_name host_id : Nat)
    (st : DiskState) : Except SanlkRv leader_record :=
  match verify_leader lockspace_name resource_name host_id st.leader with
  | SanlkRv.ok => Except.ok st.leader
  | e => Except.error e

/-- paxos_lease_release (paxos_lease.c lines 2230-2408) on a single disk
with resrename null and the leader write succeeding (write_new_leader is a
majority write; with one disk it succeeds when the disk write does): re-read
and verify the leader; if another host wrote it, skip the leader write and
succeed; otherwise verify lver, that the lease is not already free, and
ownership, then write the leader freed.  The result carries the return
value, the resulting disk state, and the leader record written (none on the
skip path, which returns success without touching leader_ret). -/
def paxos_lease_release (lockspace_name resource_name host_id host_generation monot : Nat)
    (st : DiskState) (last : leader_record) :
    SanlkRv × DiskState × Option leader_record :=
  match paxos_lease_leader_read lockspace_name resource_name host_id st with
  | Except.error e => (e, st, none)
  | Except.ok leader =>
    if leader.write_id ≠ host_id then
      (SanlkRv.ok, st, none)
    else if leader.lver ≠ last.lver then
      (SanlkRv.releaseLver, st, none)
    else if leader.timestamp = LEASE_FREE then
      (SanlkRv.releaseOwner, st, none)
    else if leader.owner_id ≠ host_id ∨ leader.owner_generation ≠ host_generation then
      (SanlkRv.releaseOwner, st, none)
    else if leader ≠ last then
      (SanlkRv.releaseOwner, st, none)
    else
      let nl := with_leader_checksum
        { leader with
          timestamp := LEASE_FREE,
          write_id := host_id,
          write_generation := host_generation,
          write_timestamp := monot,
          flags := clear_short_hold leader.flags }
      (SanlkRv.ok, { st with leader := nl }, some nl)

/-- A concrete valid leader record used by release and acquire witnesses:
owned by host 1 at generation 7, lver 3, written by host 1. -/
def sample_leader : leader_record :=
  with_leader_checksum
    { magic := PAXOS_DISK_MAGIC, version := PAXOS_DISK_VERSION_MAJOR,
      flags := 0, sector_size := 512, num_hosts := 2, max_hosts := 2000,
      owner_id := 1, owner_generation := 7, lver := 3, timestamp := 500,
      space_name := 10, resource_name := 20, write_id := 1,
      write_generation := 7, write_timestamp := 400, checksum := 0 }

/-- verify_leader succeeds exactly when every check of its chain passes. -/
theorem verify_leader_ok_iff (ls rn hid : Nat) (lr : leader_record) :
    verify_leader ls rn hid lr = SanlkRv.ok ↔
      lr.magic ≠ PAXOS_DISK_CLEAR ∧ lr.magic = PAXOS_DISK_MAGIC ∧
      lr.version / 2 ^ 16 * 2 ^ 16 = PAXOS_DISK_VERSION_MAJOR ∧
      lr.space_name = ls ∧ lr.resource_name = rn ∧
      ¬ lr.num_hosts < hid ∧ lr.checksum = leader_checksum lr := by
  unfold verify_leader
  split_ifs with a b c d e f g <;> simp_all

/-- A single-disk leader read returns a leader exactly when the stored
leader verifies, and then it returns the stored leader itself. -/
theorem paxos_lease_leader_read_ok (ls rn hid : Nat) (st : DiskState)
    (ld : leader_record) :
    paxos_lease_leader_read ls rn hid st = Except.ok ld ↔
      verify_leader ls rn hid st.leader = SanlkRv.ok ∧ ld = st.leader := by
  unfold paxos_lease_leader_read
  split <;> simp_all [eq_comm]

/-- Recomputing the leader checksum after with_leader_checksum is stable:
the checksum field is not part of the covered fields. -/
theorem leader_checksum_with (lr : leader_record) :
    (with_leader_checksum lr).checksum = leader_checksum (with_leader_checksum lr) := by
  simp [with_leader_checksum, leader_checksum]

/-- C4: when paxos_lease_release succeeds with a leader write (the owner
path, not the foreign-writer skip path), the leader it writes has timestamp
LEASE_FREE and the lver of the leader read at the start of the release, and
a subsequent leader read of the resulting disk state returns exactly that
freed leader. -/
theorem paxos_lease_release_frees (ls rn host_id host_generation monot : Nat)
    (st : DiskState) (last : leader_record) (st2 : DiskState) (nl : leader_record)
    (h : paxos_lease_release ls rn host_id host_generation monot st last =
      (SanlkRv.ok, st2, some nl)) :
    nl.timestamp = LEASE_FREE ∧
    nl.lver = st.leader.lver ∧
    paxos_lease_leader_read ls rn host_id st2 = Except.ok nl := by
  unfold paxos_lease_release at h
  rcases hv : paxos_lease_leader_read ls rn host_id st with e | leader
  · rw [hv] at h
    simp at h
  rw [hv] at h
  obtain ⟨hvok, hld⟩ := (paxos_lease_leader_read_ok ls rn host_id st leader).1 hv
  subst hld
  by_cases hw : st.leader.write_id ≠ host_id
  · simp [hw] at h
  by_cases hl : st.leader.lver ≠ last.lver
  · simp [hw, hl] at h
  by_cases ht : st.leader.timestamp = LEASE_FREE
  · simp [hw, hl, ht] at h
  by_cases ho : st.leader.owner_id ≠ host_id ∨ st.leader.owner_generation ≠ host_generation
  · simp [hw, hl, ht, ho] at h
  by_cases he : st.leader ≠ last
  · simp [hw, hl, ht, ho, he] at h
  simp [hw, hl, ht, ho, he] at h
  obtain ⟨hst2, hnl⟩ := h
  subst hst2
  subst hnl
  obtain ⟨m1, m2, m3, m4, m5, m6, -⟩ := (verify_leader_ok_iff ls rn host_id st.leader).1 hvok
  refine ⟨by simp [with_leader_checksum], by simp [with_leader_checksum], ?_⟩
  rw [paxos_lease_leader_read_ok]
  refine ⟨?_, by simp⟩
  rw [verify_leader_ok_iff]
  refine ⟨?_, ?_, ?_, ?_, ?_, ?_, ?_⟩ <;>
    simp_all [with_leader_checksum, leader_checksum, PAXOS_DISK_MAGIC, PAXOS_DISK_CLEAR]

/-- The outcome of a concrete successful owner release of sample_leader. -/
def release_out : SanlkRv × DiskState × Option leader_record :=
  paxos_lease_release 10 20 1 7 600
    ⟨sample_leader, [zero_dblock, zero_dblock]⟩ sample_leader

/-- The leader record written by that concrete release. -/
def released_leader : leader_record := (release_out.2.2).getD sample_leader

/-- Witness for paxos_lease_release_frees: the concrete owner release frees
the lease, keeps lver 3, and a re-read returns the freed leader. -/
theorem paxos_lease_release_frees_witness :
    released_leader.timestamp = LEASE_FREE ∧
    released_leader.lver = (DiskState.mk sample_leader [zero_dblock, zero_dblock]).leader.lver ∧
    paxos_lease_leader_read 10 20 1 release_out.2.1 = Except.ok released_leader :=
  paxos_lease_release_frees 10 20 1 7 600
    ⟨sample_leader, [zero_dblock, zero_dblock]⟩ sample_leader
    release_out.2.1 released_leader (by decide)

/-- A verified leader whose lease is already free (timestamp LEASE_FREE),
written and owned by host 1. -/
def release_free_leader : leader_record :=
  with_leader_checksum { sample_leader with timestamp := LEASE_FREE, checksum := 0 }

/-- A verified leader owned by a different host (owner_id 2) but written by
host 1. -/
def release_other_owner_leader : leader_record :=
  with_leader_checksum { sample_leader with owner_id := 2, timestamp := 55, checksum := 0 }

/-- C5 counterexample: with the writer being our host, the release failure
for a lease that is already free and the failure for a lease owned by
another host return the same error code (RELEASE_OWNER), so the three
verification failures of paxos_lease_release are not pairwise distinct. -/
theorem paxos_lease_release_same_error :
    (paxos_lease_release 10 20 1 7 600 ⟨release_free_leader, []⟩
      release_free_leader).1 = SanlkRv.releaseOwner ∧
    (paxos_lease_release 10 20 1 7 600 ⟨release_other_owner_leader, []⟩
      release_other_owner_leader).1 = SanlkRv.releaseOwner ∧
    release_free_leader.timestamp = LEASE_FREE ∧
    release_other_owner_leader.timestamp ≠ LEASE_FREE ∧
    release_other_owner_leader.owner_id ≠ 1 := by
  refine ⟨?_, ?_, ?_, ?_, ?_⟩ <;> decide

/-- C5 as amended: in paxos_lease_release with the on-disk leader written by
our host, an lver mismatch returns RELEASE_LVER while both an
already-free timestamp and an owner mismatch return RELEASE_OWNER;
RELEASE_LVER is distinct from RELEASE_OWNER, but the latter two failures
share one error code. -/
theorem paxos_lease_release_error_kinds (ls rn host_id host_generation monot : Nat)
    (st : DiskState) (last : leader_record)
    (hok : verify_leader ls rn host_id st.leader = SanlkRv.ok)
    (hw : st.leader.write_id = host_id) :
    (st.leader.lver ≠ last.lver →
      (paxos_lease_release ls rn host_id host_generation monot st last).1 =
        SanlkRv.releaseLver) ∧
    (st.leader.lver = last.lver → st.leader.timestamp = LEASE_FREE →
      (paxos_lease_release ls rn host_id host_generation monot st last).1 =
        SanlkRv.releaseOwner) ∧
    (st.leader.lver = last.lver → st.leader.timestamp ≠ LEASE_FREE →
      (st.leader.owner_id ≠ host_id ∨ st.leader.owner_generation ≠ host_generation) →
      (paxos_lease_release ls rn host_id host_generation monot st last).1 =
        SanlkRv.releaseOwner) ∧
    SanlkRv.releaseLver ≠ SanlkRv.releaseOwner := by
  have hread : paxos_lease_leader_read ls rn host_id st = Except.ok st.leader :=
    (paxos_lease_leader_read_ok ls rn host_id st st.leader).2 ⟨hok, rfl⟩
  refine ⟨?_, ?_, ?_, by decide⟩
  · intro hl
    simp [paxos_lease_release, hread, hw, hl]
  · intro hl ht
    simp [paxos_lease_release, hread, hw, hl, ht]
  · intro hl ht ho
    simp [paxos_lease_release, hread, hw, hl, ht, ho]

/-- Witness for paxos_lease_release_error_kinds: a concrete lver mismatch
(disk lver 3, caller remembers lver 4) yields RELEASE_LVER. -/
theorem paxos_lease_release_error_kinds_witness :
    (paxos_lease_release 10 20 1 7 600 ⟨sample_leader, []⟩
      { sample_leader with lver := 4 }).1 = SanlkRv.releaseLver :=
  (paxos_lease_release_error_kinds 10 20 1 7 600 ⟨sample_leader, []⟩
    { sample_leader with lver := 4 } (by decide) (by decide)).1 (by decide)

/-- A dblock read from disk passes checksum verification: the stored
checksum agrees with the one recomputed from the sector (or the block is
all-zero). -/
def dblock_verifies (bk : paxos_dblock) : Prop :=
  verify_dblock bk (dblock_checksum bk) = SanlkRv.ok

instance (bk : paxos_dblock) : Decidable (dblock_verifies bk) := by
  unfold dblock_verifies; infer_instance

/-- One step of the phase-1 read loop of run_ballot (paxos_lease.c lines
554-659) for one read-back dblock bk, with dblock our just-written block and
bk_max the best proposal seen so far: skip blocks failing checksum
verification, skip blocks of older lease versions, abort on a newer lease
version or a larger ballot number, then track the largest nonzero-bal
proposal with a nonzero inp. -/
def phase1_step (dblock bk_max bk : paxos_dblock) : Except SanlkRv paxos_dblock :=
  if ¬ dblock_verifies bk then Except.ok bk_max
  else if bk.lver < dblock.lver then Except.ok bk_max
  else if bk.lver > dblock.lver then Except.error SanlkRv.dblockLver
  else if bk.mbal > dblock.mbal then Except.error SanlkRv.dblockMbal
  else if bk.inp = 0 then Except.ok bk_max
  else if bk.bal = 0 then Except.ok bk_max
  else if bk.bal > bk_max.bal then Except.ok bk
  else Except.ok bk_max

/-- The phase-1 read loop of run_ballot over the read-back dblocks (the
per-disk, per-host double loop flattened into one list), starting from an
accumulated bk_max: abort with DBLOCK_LVER or DBLOCK_MBAL, or complete with
the final bk_max. -/
def phase1_scan (dblock : paxos_dblock) :
    List paxos_dblock → paxos_dblock → Except SanlkRv paxos_dblock
  | [], bk_max => Except.ok bk_max
  | bk :: rest, bk_max =>
    match phase1_step dblock bk_max bk with
    | Except.error e => Except.error e
    | Except.ok acc => phase1_scan dblock rest acc

/-- A read-back dblock eligible to become bk_max in phase 1: it verifies,
carries our lease version, and proposes a nonzero inp at a nonzero bal. -/
def bk_max_eligible (dblock bk : paxos_dblock) : Prop :=
  dblock_verifies bk ∧ bk.lver = dblock.lver ∧ bk.inp ≠ 0 ∧ bk.bal ≠ 0

/-- C1 counterexample: a read-back dblock that passes checksum verification
and has mbal greater than our dblock (and a positive bal) but belongs to an
older lease version neither aborts the ballot with DBLOCK_MBAL (phase 1
completes) nor is tracked as bk_max. -/
theorem phase1_scan_stale_high_mbal :
    (with_dblock_checksum ⟨100, 40, 9, 1, 1, 2, 0, 0⟩).mbal >
      (with_dblock_checksum ⟨7, 0, 0, 0, 0, 5, 0, 0⟩).mbal ∧
    dblock_verifies (with_dblock_checksum ⟨100, 40, 9, 1, 1, 2, 0, 0⟩) ∧
    (with_dblock_checksum ⟨100, 40, 9, 1, 1, 2, 0, 0⟩).bal > 0 ∧
    phase1_scan (with_dblock_checksum ⟨7, 0, 0, 0, 0, 5, 0, 0⟩)
      [with_dblock_checksum ⟨100, 40, 9, 1, 1, 2, 0, 0⟩] zero_dblock =
      Except.ok zero_dblock := by
  refine ⟨?_, ?_, ?_, ?_⟩ <;> decide

/-- A phase-1 step that returns an error was looking at a verified dblock
with a larger lver (DBLOCK_LVER) or an equal lver and larger mbal
(DBLOCK_MBAL). -/
theorem phase1_step_error (dblock acc bk : paxos_dblock) (e : SanlkRv)
    (h : phase1_step dblock acc bk = Except.error e) :
    dblock_verifies bk ∧
    ((e = SanlkRv.dblockLver ∧ dblock.lver < bk.lver) ∨
     (e = SanlkRv.dblockMbal ∧ bk.lver = dblock.lver ∧ dblock.mbal < bk.mbal)) := by
  unfold phase1_step at h
  split_ifs at h with h1 h2 h3 h4 h5 h6 h7 <;> injection h with he <;> subst he
  · exact ⟨h1, Or.inl ⟨rfl, h3⟩⟩
  · exact ⟨h1, Or.inr ⟨rfl, by omega, h4⟩⟩

/-- A verified dblock with a larger lver, or an equal lver and a larger
mbal, makes the phase-1 step abort. -/
theorem phase1_step_abort (dblock acc bk : paxos_dblock)
    (hv : dblock_verifies bk)
    (ha : dblock.lver < bk.lver ∨ (bk.lver = dblock.lver ∧ dblock.mbal < bk.mbal)) :
    ∃ e, phase1_step dblock acc bk = Except.error e := by
  unfold phase1_step
  rcases ha with ha | ⟨ha1, ha2⟩
  · refine ⟨SanlkRv.dblockLver, ?_⟩
    rw [if_neg (not_not_intro hv), if_neg (by omega), if_pos (by omega)]
  · refine ⟨SanlkRv.dblockMbal, ?_⟩
    rw [if_neg (not_not_intro hv), if_neg (by omega), if_neg (by omega), if_pos (by omega)]

/-- A phase-1 step that does not abort either keeps the accumulator (when
the dblock is ineligible or does not beat it) or replaces it with an
eligible dblock of strictly larger bal. -/
theorem phase1_step_ok (dblock acc bk acc2 : paxos_dblock)
    (h : phase1_step dblock acc bk = Except.ok acc2) :
    (acc2 = acc ∧ (¬ bk_max_eligible dblock bk ∨ bk.bal ≤ acc.bal)) ∨
    (acc2 = bk ∧ bk_max_eligible dblock bk ∧ acc.bal < bk.bal) := by
  unfold phase1_step at h
  unfold bk_max_eligible
  split_ifs at h with h1 h2 h3 h4 h5 h6 h7 <;> injection h with he
  · exact Or.inl ⟨he.symm, Or.inl fun hel => absurd hel.2.1 (by omega)⟩
  · exact Or.inl ⟨he.symm, Or.inl fun hel => hel.2.2.1 h5⟩
  · exact Or.inl ⟨he.symm, Or.inl fun hel => hel.2.2.2 h6⟩
  · exact Or.inr ⟨he.symm, ⟨h1, by omega, h5, h6⟩, h7⟩
  · exact Or.inl ⟨he.symm, Or.inr (by omega)⟩
  · exact Or.inl ⟨he.symm, Or.inl fun hel => h1 hel.1⟩

/-- Running the phase-1 scan from any accumulator: an abort with
DBLOCK_LVER or DBLOCK_MBAL points to a verified read-back dblock with,
respectively, a larger lver or an equal lver and a larger mbal. -/
theorem phase1_scan_error (dblock : paxos_dblock) :
    ∀ (bks : List paxos_dblock) (acc : paxos_dblock) (e : SanlkRv),
      phase1_scan dblock bks acc = Except.error e →
      (e = SanlkRv.dblockLver ∧ ∃ bk ∈ bks, dblock_verifies bk ∧ dblock.lver < bk.lver) ∨
      (e = SanlkRv.dblockMbal ∧
        ∃ bk ∈ bks, dblock_verifies bk ∧ bk.lver = dblock.lver ∧ dblock.mbal < bk.mbal)
  | [], acc, e => by
    intro h
    simp [phase1_scan] at h
  | bk :: rest, acc, e => by
    intro h
    simp only [phase1_scan] at h
    rcases hstep : phase1_step dblock acc bk with e2 | acc2 <;> rw [hstep] at h
    · obtain ⟨hv, hcases⟩ := phase1_step_error dblock acc bk e2 hstep
      simp only [Except.error.injEq] at h
      subst h
      rcases hcases with ⟨he, hlt⟩ | ⟨he, heq, hlt⟩
      · exact Or.inl ⟨he, bk, List.mem_cons_self .., hv, hlt⟩
      · exact Or.inr ⟨he, bk, List.mem_cons_self .., hv, heq, hlt⟩
    · rcases phase1_scan_error dblock rest acc2 e h with ⟨he, bk2, hm, hrest⟩ | ⟨he, bk2, hm, hrest⟩
      · exact Or.inl ⟨he, bk2, List.mem_cons_of_mem _ hm, hrest⟩
      · exact Or.inr ⟨he, bk2, List.mem_cons_of_mem _ hm, hrest⟩

/-- Running the phase-1 scan from any accumulator: a verified read-back
dblock carrying abort evidence forces the scan to abort. -/
theorem phase1_scan_aborts (dblock : paxos_dblock) :
    ∀ (bks : List paxos_dblock) (acc : paxos_dblock),
      (∃ bk ∈ bks, dblock_verifies bk ∧
        (dblock.lver < bk.lver ∨ (bk.lver = dblock.lver ∧ dblock.mbal < bk.mbal))) →
      ∃ e, phase1_scan dblock bks acc = Except.error e
  | [], acc => by
    rintro ⟨bk, hm, -⟩
    simp at hm
  | bk :: rest, acc => by
    rintro ⟨bk2, hm, hv, ha⟩
    simp only [phase1_scan]
    rcases List.mem_cons.1 hm with rfl | hm2
    · obtain ⟨e, he⟩ := phase1_step_abort dblock acc bk2 hv ha
      exact ⟨e, by rw [he]⟩
    · rcases hstep : phase1_step dblock acc bk with e2 | acc2
      · exact ⟨e2, rfl⟩
      · obtain ⟨e, he⟩ := phase1_scan_aborts dblock rest acc2 ⟨bk2, hm2, hv, ha⟩
        exact ⟨e, he⟩

/-- Running the phase-1 scan from any accumulator: a completed scan returns
either the starting accumulator or an eligible member of the list, its bal
is at least the starting bal, and it dominates the bal of every eligible
member. -/
theorem phase1_scan_ok (dblock : paxos_dblock) :
    ∀ (bks : List paxos_dblock) (acc bkm : paxos_dblock),
      phase1_scan dblock bks acc = Except.ok bkm →
      (bkm = acc ∨ (bkm ∈ bks ∧ bk_max_eligible dblock bkm)) ∧
      acc.bal ≤ bkm.bal ∧
      ∀ bk ∈ bks, bk_max_eligible dblock bk → bk.bal ≤ bkm.bal
  | [], acc, bkm => by
    intro h
    simp only [phase1_scan, Except.ok.injEq] at h
    subst h
    exact ⟨Or.inl rfl, le_refl _, by simp⟩
  | bk :: rest, acc, bkm => by
    intro h
    simp only [phase1_scan] at h
    rcases hstep : phase1_step dblock acc bk with e2 | acc2 <;> rw [hstep] at h
    · simp at h
    · obtain ⟨hmem, hle, hdom⟩ := phase1_scan_ok dblock rest acc2 bkm h
      rcases phase1_step_ok dblock acc bk acc2 hstep with ⟨rfl, hcase⟩ | ⟨rfl, helig, hlt⟩
      · refine ⟨?_, hle, ?_⟩
        · rcases hmem with hmem | ⟨hm2, he2⟩
          · exact Or.inl hmem
          · exact Or.inr ⟨List.mem_cons_of_mem _ hm2, he2⟩
        · intro bk2 hm2 he2
          rcases List.mem_cons.1 hm2 with rfl | hm3
          · rcases hcase with hcase | hcase
            · exact absurd he2 hcase
            · exact le_trans hcase hle
          · exact hdom bk2 hm3 he2
      · refine ⟨?_, le_trans (le_of_lt hlt) hle, ?_⟩
        · rcases hmem with hmem | ⟨hm2, he2⟩
          · exact Or.inr ⟨by simp [hmem], by rw [hmem]; exact helig⟩
          · exact Or.inr ⟨List.mem_cons_of_mem _ hm2, he2⟩
        · intro bk2 hm2 he2
          rcases List.mem_cons.1 hm2 with rfl | hm3
          · exact hle
          · exact hdom bk2 hm3 he2

/-- C1 as amended: in phase 1 of run_ballot, read-back dblocks failing
checksum verification or carrying an lver below ours are skipped; the scan
aborts with DBLOCK_LVER exactly on evidence of a verified dblock with lver
above ours and with DBLOCK_MBAL on a verified dblock of our lver with mbal
above ours (and such evidence always aborts the scan); a completed scan
tracks as bk_max a verified dblock of our lver with nonzero inp and bal
whose bal dominates every such candidate. -/
theorem run_ballot_phase1_spec (dblock : paxos_dblock) (bks : List paxos_dblock) :
    (phase1_scan dblock bks zero_dblock = Except.error SanlkRv.dblockLver →
      ∃ bk ∈ bks, dblock_verifies bk ∧ dblock.lver < bk.lver) ∧
    (phase1_scan dblock bks zero_dblock = Except.error SanlkRv.dblockMbal →
      ∃ bk ∈ bks, dblock_verifies bk ∧ bk.lver = dblock.lver ∧ dblock.mbal < bk.mbal) ∧
    ((∃ bk ∈ bks, dblock_verifies bk ∧
        (dblock.lver < bk.lver ∨ (bk.lver = dblock.lver ∧ dblock.mbal < bk.mbal))) →
      ∃ e, phase1_scan dblock bks zero_dblock = Except.error e) ∧
    (∀ bkm, phase1_scan dblock bks zero_dblock = Except.ok bkm → bkm ≠ zero_dblock →
      bkm ∈ bks ∧ bk_max_eligible dblock bkm ∧
      ∀ bk ∈ bks, bk_max_eligible dblock bk → bk.bal ≤ bkm.bal) := by
  refine ⟨?_, ?_, ?_, ?_⟩
  · intro h
    rcases phase1_scan_error dblock bks zero_dblock _ h with ⟨-, hw⟩ | ⟨he, -⟩
    · exact hw
    · cases he
  · intro h
    rcases phase1_scan_error dblock bks zero_dblock _ h with ⟨he, -⟩ | ⟨-, hw⟩
    · cases he
    · exact hw
  · exact phase1_scan_aborts dblock bks zero_dblock
  · intro bkm h hnz
    obtain ⟨hmem, -, hdom⟩ := phase1_scan_ok dblock bks zero_dblock bkm h
    rcases hmem with hmem | ⟨hm, he⟩
    · exact absurd hmem hnz
    · exact ⟨hm, he, hdom⟩

/-- Witness for run_ballot_phase1_spec: a concrete eligible proposal (equal
lver 5, mbal 6 below ours, inp 3, bal 4) completes phase 1 as bk_max. -/
theorem run_ballot_phase1_spec_witness :
    with_dblock_checksum ⟨6, 4, 3, 1, 2, 5, 0, 0⟩ ∈
      [with_dblock_checksum ⟨6, 4, 3, 1, 2, 5, 0, 0⟩] ∧
    bk_max_eligible (with_dblock_checksum ⟨7, 0, 0, 0, 0, 5, 0, 0⟩)
      (with_dblock_checksum ⟨6, 4, 3, 1, 2, 5, 0, 0⟩) :=
  ⟨((run_ballot_phase1_spec (with_dblock_checksum ⟨7, 0, 0, 0, 0, 5, 0, 0⟩)
      [with_dblock_checksum ⟨6, 4, 3, 1, 2, 5, 0, 0⟩]).2.2.2
    (with_dblock_checksum ⟨6, 4, 3, 1, 2, 5, 0, 0⟩) (by decide) (by decide)).1,
   ((run_ballot_phase1_spec (with_dblock_checksum ⟨7, 0, 0, 0, 0, 5, 0, 0⟩)
      [with_dblock_checksum ⟨6, 4, 3, 1, 2, 5, 0, 0⟩]).2.2.2
    (with_dblock_checksum ⟨6, 4, 3, 1, 2, 5, 0, 0⟩) (by decide) (by decide)).2.1⟩

/-- The phase-2 read loop of run_ballot (paxos_lease.c lines 752-861): like
phase 1 it skips unverified dblocks and older lease versions and aborts on a
newer lver or larger mbal, but it tracks no bk_max.  Returns the abort
error, if any. -/
def phase2_check (dblock : paxos_dblock) : List paxos_dblock → Option SanlkRv
  | [] => none
  | bk :: rest =>
    if ¬ dblock_verifies bk then phase2_check dblock rest
    else if bk.lver < dblock.lver then phase2_check dblock rest
    else if bk.lver > dblock.lver then some SanlkRv.dblockLver
    else if bk.mbal > dblock.mbal then some SanlkRv.dblockMbal
    else phase2_check dblock rest

/-- The phase-2 read loop aborts only with DBLOCK_LVER or DBLOCK_MBAL. -/
theorem phase2_check_some (dblock : paxos_dblock) :
    ∀ (bks : List paxos_dblock) (e : SanlkRv),
      phase2_check dblock bks = some e →
      e = SanlkRv.dblockLver ∨ e = SanlkRv.dblockMbal
  | [], e => by
    intro h
    simp [phase2_check] at h
  | bk :: rest, e => by
    intro h
    unfold phase2_check at h
    split_ifs at h with h1 h2 h3 h4
    · exact phase2_check_some dblock rest e h
    · injection h with he
      exact Or.inl he.symm
    · injection h with he
      exact Or.inr he.symm
    · exact phase2_check_some dblock rest e h
    · exact phase2_check_some dblock rest e h

/-- The per-ballot I/O environment of one run_ballot call on one disk: the
success of our two dblock writes and two lease-area reads, and the
interference of other hosts (the dblock sectors they write between our
writes and the corresponding read-back of the lease area). -/
structure BallotEnv where
  write1_ok : Bool
  read1_ok : Bool
  intf1 : List paxos_dblock → List paxos_dblock
  write2_ok : Bool
  read2_ok : Bool
  intf2 : List paxos_dblock → List paxos_dblock

/-- The outcome of run_ballot: the return value, the in-memory dblock at
return (dblock_out is filled in even on error), whether the phase-2 stage
was entered (the phase2 variable of the C code), whether T_RETRACT_PAXOS was
set on the token, and the resulting disk state. -/
structure BallotResult where
  error : SanlkRv
  dblock : paxos_dblock
  phase2 : Bool
  retract : Bool
  state : DiskState

/-- Phase 2 of run_ballot (paxos_lease.c lines 714-872), entered with the
chosen dblock2: write it to our dblock sector, read the lease area back and
re-check every host dblock.  A write failure stands for losing the majority
of dblock writes (DBLOCK_WRITE); a read failure for losing the majority of
reads (DBLOCK_READ); on those two errors T_RETRACT_PAXOS is set (the phase2
variable of the C code is true throughout this stage). -/
def run_ballot_phase2 (env : BallotEnv) (host_id : Nat) (dblock2 : paxos_dblock)
    (st1 : DiskState) : BallotResult :=
  if ¬ env.write2_ok then
    ⟨SanlkRv.dblockWrite, dblock2, true, true, st1⟩
  else
    let bks2 := env.intf2 (st1.dblocks.set (host_id - 1) dblock2)
    let st2 : DiskState := ⟨st1.leader, bks2⟩
    if ¬ env.read2_ok then
      ⟨SanlkRv.dblockRead, dblock2, true, true, st2⟩
    else
      match phase2_check dblock2 bks2 with
      | some e => ⟨e, dblock2, true, false, st2⟩
      | none => ⟨SanlkRv.ok, dblock2, true, false, st2⟩

/-- run_ballot (paxos_lease.c lines 453-903) on a single disk.  Phase 1:
write our dblock (mbal = our_mbal, lver = next_lver), read the lease area
back and scan every host dblock, aborting on a larger lver or mbal and
tracking bk_max.  Choose the inp to commit: bk_max if one was found, else
our own (host_id, host_generation, monotime).  Then run phase 2 with
bal = mbal.  Phase-1 write and read failures stand for losing the majority
(DBLOCK_WRITE, DBLOCK_READ) and never set T_RETRACT_PAXOS since the phase2
variable is still false. -/
def run_ballot (env : BallotEnv) (host_id host_generation monot next_lver our_mbal : Nat)
    (st : DiskState) : BallotResult :=
  let dblock1 := with_dblock_checksum ⟨our_mbal, 0, 0, 0, 0, next_lver, 0, 0⟩
  if ¬ env.write1_ok then
    ⟨SanlkRv.dblockWrite, dblock1, false, false, st⟩
  else
    let bks1 := env.intf1 (st.dblocks.set (host_id - 1) dblock1)
    let st1 : DiskState := ⟨st.leader, bks1⟩
    if ¬ env.read1_ok then
      ⟨SanlkRv.dblockRead, dblock1, false, false, st1⟩
    else
      match phase1_scan dblock1 bks1 zero_dblock with
      | Except.error e => ⟨e, dblock1, false, false, st1⟩
      | Except.ok bk_max =>
        run_ballot_phase2 env host_id
          (with_dblock_checksum
            { dblock1 with
              inp := if bk_max.inp ≠ 0 then bk_max.inp else host_id,
              inp2 := if bk_max.inp ≠ 0 then bk_max.inp2 else host_generation,
              inp3 := if bk_max.inp ≠ 0 then bk_max.inp3 else monot,
              bal := dblock1.mbal,
              checksum := 0 })
          st1

/-- In phase 2, T_RETRACT_PAXOS is set exactly on the DBLOCK_WRITE and
DBLOCK_READ failures; the phase2 variable is true throughout. -/
theorem run_ballot_phase2_retract (env : BallotEnv) (host_id : Nat)
    (dblock2 : paxos_dblock) (st1 : DiskState) :
    (run_ballot_phase2 env host_id dblock2 st1).retract = true ↔
      ((run_ballot_phase2 env host_id dblock2 st1).phase2 = true ∧
       ((run_ballot_phase2 env host_id dblock2 st1).error = SanlkRv.dblockWrite ∨
        (run_ballot_phase2 env host_id dblock2 st1).error = SanlkRv.dblockRead)) := by
  unfold run_ballot_phase2
  split_ifs with hw2 hr2
  · rcases hc : phase2_check dblock2 (env.intf2 (st1.dblocks.set (host_id - 1) dblock2))
      with _ | e
    · simp [hc]
    · rcases phase2_check_some _ _ _ hc with he | he <;> simp [hc, he]
  · simp
  · simp

/-- The ballot I/O of the C3 counterexample: all of our I/O succeeds; host 2
writes its own phase-1 dblock (mbal 2001, lver 4) between our phase-2 write
and our phase-2 read-back. -/
def contended_env : BallotEnv :=
  ⟨true, true, id, true, true,
    fun l => l.set 1 (with_dblock_checksum ⟨2001, 0, 0, 0, 0, 4, 0, 0⟩)⟩

/-- C3 counterexample: a ballot whose phase 2 was entered (after our dblock
writes completed) and which fails with the DBLOCK_MBAL abort does not set
T_RETRACT_PAXOS; the flag is reserved for DBLOCK_READ and DBLOCK_WRITE
failures. -/
theorem run_ballot_mbal_no_retract :
    (run_ballot contended_env 1 7 600 4 1
      ⟨sample_leader, [zero_dblock, zero_dblock]⟩).error = SanlkRv.dblockMbal ∧
    (run_ballot contended_env 1 7 600 4 1
      ⟨sample_leader, [zero_dblock, zero_dblock]⟩).phase2 = true ∧
    contended_env.write1_ok = true ∧ contended_env.write2_ok = true ∧
    (run_ballot contended_env 1 7 600 4 1
      ⟨sample_leader, [zero_dblock, zero_dblock]⟩).retract = false :=
  ⟨rfl, rfl, rfl, rfl, rfl⟩

/-- C3 as amended: run_ballot sets T_RETRACT_PAXOS exactly when the phase-2
stage has been entered and the ballot then fails with DBLOCK_WRITE or
DBLOCK_READ (a lost write or read majority); the MBAL and LVER aborts never
set the flag. -/
theorem run_ballot_retract_spec (env : BallotEnv)
    (host_id host_generation monot next_lver our_mbal : Nat) (st : DiskState) :
    (run_ballot env host_id host_generation monot next_lver our_mbal st).retract = true ↔
      ((run_ballot env host_id host_generation monot next_lver our_mbal st).phase2 = true ∧
       ((run_ballot env host_id host_generation monot next_lver our_mbal st).error =
          SanlkRv.dblockWrite ∨
        (run_ballot env host_id host_generation monot next_lver our_mbal st).error =
          SanlkRv.dblockRead)) := by
  unfold run_ballot
  split_ifs with hw1 hr1
  · rcases hscan : phase1_scan (with_dblock_checksum ⟨our_mbal, 0, 0, 0, 0, next_lver, 0, 0⟩)
        (env.intf1 (st.dblocks.set (host_id - 1)
          (with_dblock_checksum ⟨our_mbal, 0, 0, 0, 0, next_lver, 0, 0⟩))) zero_dblock
      with e | bkm
    · simp [hscan]
    · simp only [hscan]
      apply run_ballot_phase2_retract
  · simp
  · simp

/-- The max-mbal fold of _lease_read_one (paxos_lease.c lines 1418-1421):
take a dblock mbal when none was recorded yet or when it is larger. -/
def lease_read_max_mbal (bks : List paxos_dblock) : Nat :=
  bks.foldl (fun tmp bk => if tmp = 0 ∨ tmp < bk.mbal then bk.mbal else tmp) 0

/-- paxos_lease_read via _lease_read_one on a single disk: read the whole
lease area in one I/O, verify the leader, verify every dblock (a dblock
checksum failure fails the whole read), and extract the maximum mbal seen
across all dblocks. -/
def paxos_lease_read (lockspace_name resource_name host_id : Nat)
    (st : DiskState) : Except SanlkRv (leader_record × Nat) :=
  match verify_leader lockspace_name resource_name host_id st.leader with
  | SanlkRv.ok =>
    if st.dblocks.all (fun bk => decide (dblock_verifies bk)) then
      Except.ok (st.leader, lease_read_max_mbal st.dblocks)
    else
      Except.error SanlkRv.dblockChecksum
  | e => Except.error e

/-- The new leader record composed on ballot success (paxos_lease.c lines
2118-2147): the committed dblock inp triple becomes the owner, write_*
record our host, and LFL_SHORT_HOLD is cleared (exclusive acquire) only
when we commit ourselves as owner. -/
def acquire_new_leader (cur : leader_record) (host_id host_generation monot : Nat)
    (d : paxos_dblock) : leader_record :=
  let nl0 := { cur with
    lver := d.lver,
    owner_id := d.inp,
    owner_generation := d.inp2,
    timestamp := d.inp3,
    write_id := host_id,
    write_generation := host_generation,
    write_timestamp := monot }
  let nl1 := if nl0.owner_id = host_id then
      { nl0 with flags := clear_short_hold nl0.flags }
    else nl0
  with_leader_checksum { nl1 with checksum := 0 }

/-- The composed leader carries the lver and owner_id of the committed
dblock. -/
theorem acquire_new_leader_fields (cur : leader_record)
    (host_id host_generation monot : Nat) (d : paxos_dblock) :
    (acquire_new_leader cur host_id host_generation monot d).lver = d.lver ∧
    (acquire_new_leader cur host_id host_generation monot d).owner_id = d.inp := by
  unfold acquire_new_leader
  dsimp only
  split_ifs <;> simp [with_leader_checksum]

/-- paxos_lease_acquire (paxos_lease.c lines 1647-2191) in the sequential
single-disk model, restricted to the paths the embedding covers: flags 0 (no
FORCE, no SHARED), acquire_lver 0, new_num_hosts 0, sector and align sizes
consistent, and all our disk I/O succeeding with no interference from other
hosts.  After the lease read, the code jumps to the ballot when the leader
is free, owned by us at our generation, or owned by us at an older
generation; the owner-liveness wait loop of the other branch is outside this
sequential model and yields none.  The ballot branch chooses
next_lver = cur_leader.lver + 1 and our_mbal by choose_mbal, re-checks the
leader (unchanged here, since the initial read is reused via
copy_cur_leader), runs the ballot, and on success writes the new leader
composed from the committed dblock with write_id our host.  A ballot MBAL or
LVER abort would loop back to retry_ballot; the model returns none for that
unmodelled continuation.  The result carries the return value, the final
disk state, and leader_ret. -/
def paxos_lease_acquire (lockspace_name resource_name host_id host_generation monot : Nat)
    (st : DiskState) : Option (SanlkRv × DiskState × Option leader_record) :=
  match paxos_lease_read lockspace_name resource_name host_id st with
  | Except.error e => some (e, st, none)
  | Except.ok (cur_leader, max_mbal) =>
    if cur_leader.timestamp = LEASE_FREE ∨
       (cur_leader.owner_id = host_id ∧ cur_leader.owner_generation = host_generation) ∨
       (cur_leader.owner_id = host_id ∧ cur_leader.owner_generation < host_generation) then
      let next_lver := cur_leader.lver + 1
      let our_mbal := choose_mbal max_mbal host_id cur_leader.max_hosts
      let br := run_ballot ⟨true, true, id, true, true, id⟩
        host_id host_generation monot next_lver our_mbal st
      if br.error = SanlkRv.dblockMbal ∨ br.error = SanlkRv.dblockLver then
        none
      else if br.error ≠ SanlkRv.ok then
        some (br.error, br.state, none)
      else
        let nl := acquire_new_leader cur_leader host_id host_generation monot br.dblock
        let st2 : DiskState := ⟨nl, br.state.dblocks⟩
        if nl.owner_id ≠ host_id then
          some (SanlkRv.acquireOther, st2, some nl)
        else
          some (SanlkRv.ok, st2, some nl)
    else
      none

/-- The dblock_out of run_ballot always carries lver = next_lver in phase 2
(both the phase-1 dblock and the phase-2 dblock keep the lver chosen at
entry). -/
theorem run_ballot_phase2_dblock (env : BallotEnv) (host_id : Nat)
    (dblock2 : paxos_dblock) (st1 : DiskState) :
    (run_ballot_phase2 env host_id dblock2 st1).dblock = dblock2 := by
  unfold run_ballot_phase2
  split_ifs with hw2 hr2
  · rcases hc : phase2_check dblock2 (env.intf2 (st1.dblocks.set (host_id - 1) dblock2))
      with _ | e <;> simp [hc]
  · simp
  · simp

/-- The dblock_out of run_ballot always carries the next_lver the ballot was
run for. -/
theorem run_ballot_dblock_lver (env : BallotEnv)
    (host_id host_generation monot next_lver our_mbal : Nat) (st : DiskState) :
    (run_ballot env host_id host_generation monot next_lver our_mbal st).dblock.lver =
      next_lver := by
  unfold run_ballot
  split_ifs with hw1 hr1
  · rcases hscan : phase1_scan (with_dblock_checksum ⟨our_mbal, 0, 0, 0, 0, next_lver, 0, 0⟩)
        (env.intf1 (st.dblocks.set (host_id - 1)
          (with_dblock_checksum ⟨our_mbal, 0, 0, 0, 0, next_lver, 0, 0⟩))) zero_dblock
      with e | bkm
    · simp only [hscan]
      simp [with_dblock_checksum]
    · simp only [hscan]
      rw [run_ballot_phase2_dblock]
      simp [with_dblock_checksum]
  · simp [with_dblock_checksum]
  · simp [with_dblock_checksum]

/-- A successful paxos_lease_read returns the stored leader, the maximum
mbal of the stored dblocks, and implies the leader verified. -/
theorem paxos_lease_read_ok (ls rn hid : Nat) (st : DiskState)
    (cur : leader_record) (mm : Nat)
    (h : paxos_lease_read ls rn hid st = Except.ok (cur, mm)) :
    cur = st.leader ∧ mm = lease_read_max_mbal st.dblocks ∧
    verify_leader ls rn hid st.leader = SanlkRv.ok := by
  unfold paxos_lease_read at h
  split at h
  · split_ifs at h with hall
    injection h with he
    obtain ⟨h1, h2⟩ := Prod.mk.injEq .. ▸ he.symm
    exact ⟨h1, h2, by assumption⟩
  · exact absurd h (by simp)

/-- The concrete acquire call of the C7 counterexample: host 1 at
generation 7 acquires a resource whose leader already records host 1,
generation 7 as owner. -/
def acquire_out : Option (SanlkRv × DiskState × Option leader_record) :=
  paxos_lease_acquire 10 20 1 7 600 ⟨sample_leader, [zero_dblock, zero_dblock]⟩

/-- The return value of the counterexample acquire call (leaderRead is a
dummy for the impossible none case). -/
def acquire_out_rv : SanlkRv :=
  match acquire_out with
  | some (e, _, _) => e
  | none => SanlkRv.leaderRead

/-- The disk state left behind by the counterexample acquire call. -/
def acquire_out_state : DiskState :=
  match acquire_out with
  | some (_, st2, _) => st2
  | none => ⟨sample_leader, []⟩

/-- C7 counterexample: an acquire by the recorded owner (matching host_id
and host_generation) succeeds, but it is not read-only: the resulting disk
state differs from the initial one, the leader lver advanced from 3 to 4,
and our dblock sector was written. -/
theorem paxos_lease_acquire_owner_writes :
    sample_leader.owner_id = 1 ∧ sample_leader.owner_generation = 7 ∧
    sample_leader.timestamp ≠ LEASE_FREE ∧
    acquire_out.isSome = true ∧
    acquire_out_rv = SanlkRv.ok ∧
    acquire_out_state ≠ ⟨sample_leader, [zero_dblock, zero_dblock]⟩ ∧
    acquire_out_state.leader.lver = sample_leader.lver + 1 ∧
    acquire_out_state.dblocks ≠ [zero_dblock, zero_dblock] := by
  refine ⟨by decide, by decide, by decide, by decide, by decide, by decide, by decide, by decide⟩

/-- C7 as amended: when the current leader already records the caller as
owner with matching host_id and host_generation (and a non-free timestamp),
paxos_lease_acquire does not return read-only: it proceeds directly to a new
ballot, and when that acquire succeeds the leader it wrote carries
lver = cur.lver + 1 with the caller as owner, and the disk state has
changed. -/
theorem paxos_lease_acquire_owner_reruns_ballot
    (ls rn host_id host_generation monot : Nat) (st : DiskState)
    (cur : leader_record) (mm : Nat) (st2 : DiskState) (nl : leader_record)
    (hread : paxos_lease_read ls rn host_id st = Except.ok (cur, mm))
    (hown : cur.owner_id = host_id) (hgen : cur.owner_generation = host_generation)
    (hts : cur.timestamp ≠ LEASE_FREE)
    (hres : paxos_lease_acquire ls rn host_id host_generation monot st =
      some (SanlkRv.ok, st2, some nl)) :
    nl.lver = cur.lver + 1 ∧ nl.owner_id = host_id ∧ st2.leader = nl ∧ st2 ≠ st := by
  obtain ⟨hcur, -, -⟩ := paxos_lease_read_ok ls rn host_id st cur mm hread
  unfold paxos_lease_acquire at hres
  rw [hread] at hres
  dsimp only at hres
  rw [if_pos (Or.inr (Or.inl ⟨hown, hgen⟩))] at hres
  by_cases hmb : (run_ballot ⟨true, true, id, true, true, id⟩ host_id host_generation monot
      (cur.lver + 1) (choose_mbal mm host_id cur.max_hosts) st).error = SanlkRv.dblockMbal ∨
      (run_ballot ⟨true, true, id, true, true, id⟩ host_id host_generation monot
      (cur.lver + 1) (choose_mbal mm host_id cur.max_hosts) st).error = SanlkRv.dblockLver
  · rw [if_pos hmb] at hres
    exact absurd hres (by simp)
  rw [if_neg hmb] at hres
  by_cases hne : (run_ballot ⟨true, true, id, true, true, id⟩ host_id host_generation monot
      (cur.lver + 1) (choose_mbal mm host_id cur.max_hosts) st).error ≠ SanlkRv.ok
  · rw [if_pos hne] at hres
    simp at hres
  rw [if_neg hne] at hres
  by_cases hoth : (acquire_new_leader cur host_id host_generation monot
      (run_ballot ⟨true, true, id, true, true, id⟩ host_id host_generation monot
        (cur.lver + 1) (choose_mbal mm host_id cur.max_hosts) st).dblock).owner_id ≠ host_id
  · rw [if_pos hoth] at hres
    exact absurd hres (by simp)
  rw [if_neg hoth] at hres
  rw [not_not] at hoth
  simp only [Option.some.injEq, Prod.mk.injEq] at hres
  obtain ⟨-, hst2, hnl⟩ := hres
  have hlver : nl.lver = cur.lver + 1 := by
    rw [← hnl]
    rw [(acquire_new_leader_fields cur host_id host_generation monot _).1]
    exact run_ballot_dblock_lver _ _ _ _ _ _ _
  refine ⟨hlver, ?_, ?_, ?_⟩
  · rw [← hnl]
    exact hoth
  · rw [← hst2]
    exact hnl
  · intro heq
    have hsame : nl.lver = st.leader.lver := by
      rw [← heq, ← hst2, ← hnl]
    rw [hlver, ← hcur] at hsame
    omega

/-- The leader record committed by the counterexample acquire call. -/
def acquire_out_leader : leader_record :=
  match acquire_out with
  | some (_, _, some nl) => nl
  | _ => sample_leader

/-- Witness for paxos_lease_acquire_owner_reruns_ballot at the concrete
owner re-acquire: the committed leader has lver 4 and host 1 as owner, and
the disk state changed. -/
theorem paxos_lease_acquire_owner_reruns_ballot_witness :
    acquire_out_leader.lver = sample_leader.lver + 1 ∧
    acquire_out_leader.owner_id = 1 ∧
    acquire_out_state.leader = acquire_out_leader ∧
    acquire_out_state ≠ ⟨sample_leader, [zero_dblock, zero_dblock]⟩ :=
  paxos_lease_acquire_owner_reruns_ballot 10 20 1 7 600
    ⟨sample_leader, [zero_dblock, zero_dblock]⟩ sample_leader 0
    acquire_out_state acquire_out_leader
    (by decide) (by decide) (by decide) (by decide) (by decide)

/-- Modelled from the spec: get_rand (defined outside src/) returns a
uniformly random integer in [a, b]; raw stands for the entropy drawn (a
failed draw would return a negative value, handled by the caller). -/
def get_rand (a b : Int) (raw : Nat) : Int :=
  a + (raw : Int) % (b - a + 1)

/-- The MBAL/LVER retry step of paxos_lease_acquire (paxos_lease.c lines
2097-2108): when run_ballot returned the DBLOCK_MBAL or DBLOCK_LVER abort,
sleep us microseconds where us = get_rand(0, 1000000), or host_id * 100 if
the draw failed, bump our_mbal by the leader max_hosts, and go back to
retry_ballot.  Returns the microseconds slept and the new our_mbal, or none
when the error does not trigger a retry. -/
def acquire_ballot_retry (error : SanlkRv) (rand_us : Int)
    (host_id our_mbal max_hosts : Nat) : Option (Nat × Nat) :=
  if error = SanlkRv.dblockMbal ∨ error = SanlkRv.dblockLver then
    let us : Int := if rand_us < 0 then ((host_id * 100 : Nat) : Int) else rand_us
    some (us.toNat, our_mbal + max_hosts)
  else
    none

/-- C6 counterexample: the retry delay is usleep(get_rand(0, 1000000))
microseconds, so a draw of 1000000 sleeps a full second - far above 1
millisecond (1000 microseconds). -/
theorem acquire_ballot_retry_sleeps_a_second :
    acquire_ballot_retry SanlkRv.dblockMbal (get_rand 0 1000000 1000000) 1 7 2000 =
      some (1000000, 2007) ∧
    ¬ (1000000 ≤ 1000) := by
  refine ⟨by decide, by decide⟩

/-- C6 as amended: whenever run_ballot returns the MBAL or LVER abort,
paxos_lease_acquire sleeps a random delay of at most 1000000 microseconds
(one second; host_id * 100 microseconds if the random draw fails),
increments our_mbal by the leader max_hosts, and retries the ballot. -/
theorem acquire_ballot_retry_spec (error : SanlkRv) (raw host_id our_mbal max_hosts : Nat)
    (he : error = SanlkRv.dblockMbal ∨ error = SanlkRv.dblockLver) :
    acquire_ballot_retry error (get_rand 0 1000000 raw) host_id our_mbal max_hosts =
      some ((get_rand 0 1000000 raw).toNat, our_mbal + max_hosts) ∧
    (get_rand 0 1000000 raw).toNat ≤ 1000000 := by
  have h0 : (0 : Int) ≤ get_rand 0 1000000 raw := by
    unfold get_rand
    have := Int.emod_nonneg (raw : Int) (by omega : (1000000 - 0 + 1 : Int) ≠ 0)
    omega
  have h1 : get_rand 0 1000000 raw ≤ 1000000 := by
    unfold get_rand
    have := Int.emod_lt_of_pos (raw : Int) (by omega : (0 : Int) < 1000000 - 0 + 1)
    omega
  constructor
  · unfold acquire_ballot_retry
    rw [if_pos he, if_neg (by omega)]
  · omega

/-- Witness for acquire_ballot_retry_spec: a concrete MBAL abort with raw
draw 123456 retries with our_mbal 7 + 2000 after a sleep within one
second. -/
theorem acquire_ballot_retry_spec_witness :
    acquire_ballot_retry SanlkRv.dblockMbal (get_rand 0 1000000 123456) 1 7 2000 =
      some ((get_rand 0 1000000 123456).toNat, 7 + 2000) ∧
    (get_rand 0 1000000 123456).toNat ≤ 1000000 :=
  acquire_ballot_retry_spec SanlkRv.dblockMbal 123456 1 7 2000 (Or.inl rfl)

/-- A local client slot as seen by the supervisor (main.c struct client
restricted to the fields kill_pids reads): whether the slot is used, its
pid (0 = none), whether it holds a token of the failing lockspace
(client_using_space), and how many kill signals it has been sent (the
killing counter). -/
structure SpClient where
  used : Bool
  pid : Nat
  using_space : Bool
  killing : Nat
  deriving DecidableEq, Repr

/-- A fencing signal sent to a client pid. -/
inductive Sig where
  | sigterm
  | sigkill
  deriving DecidableEq, Repr

/-- A client that kill_pids considers: used, with a pid, using the failing
lockspace. -/
def client_eligible (cl : SpClient) : Bool :=
  cl.used && decide (cl.pid ≠ 0) && cl.using_space

/-- One signalling pass of kill_pids over the client table: signal every
eligible client whose killing counter is at most thr (the source skips
cl->killing > thr), increment its counter, and record the (pid, signal)
event.  Returns the updated table and the events in table order. -/
def kill_round (thr : Nat) (s : Sig) : List SpClient → List SpClient × List (Nat × Sig)
  | [] => ([], [])
  | cl :: rest =>
    let r := kill_round thr s rest
    if client_eligible cl && ! decide (thr < cl.killing) then
      ({ cl with killing := cl.killing + 1 } :: r.1, (cl.pid, s) :: r.2)
    else
      (cl :: r.1, r.2)

/-- kill_pids (main.c lines 276-355) for one supervisor tick: with
killing_pids above 11 do nothing at all; at 11 only log stuck pids (no
signals) and bump killing_pids; above 1 run a SIGKILL round over clients
with killing at most 2; otherwise run a SIGTERM round over clients with
killing at most 1.  Returns the new killing_pids, the updated client table,
and the signals sent. -/
def kill_pids (killing_pids : Nat) (cls : List SpClient) :
    Nat × List SpClient × List (Nat × Sig) :=
  if killing_pids > 11 then
    (killing_pids, cls, [])
  else if killing_pids > 10 then
    (killing_pids + 1, cls, [])
  else if killing_pids > 1 then
    let r := kill_round 2 Sig.sigkill cls
    (killing_pids + 1, r.1, r.2)
  else
    let r := kill_round 1 Sig.sigterm cls
    (killing_pids + 1, r.1, r.2)

/-- The supervisor ticks of main_loop while a lockspace is failing and its
client pids stay alive (main.c lines 412-434): each 2-second tick calls
kill_pids once, threading killing_pids (set to 1 when the failure is first
seen) and the client table; the trace collects every signal sent over n
ticks. -/
def kill_ticks : Nat → Nat → List SpClient → List (Nat × Sig)
  | 0, _, _ => []
  | n + 1, killing_pids, cls =>
    let r := kill_pids killing_pids cls
    r.2.2 ++ kill_ticks n r.1 r.2.1

/-- C8 counterexample: a single stuck client pid 42 receives one SIGTERM
round followed by two SIGKILL rounds (and then nothing), not two SIGTERM
rounds and one SIGKILL round: over any number of ticks the pid is sent
SIGTERM exactly once and SIGKILL exactly twice. -/
theorem kill_pids_one_term_two_kill :
    kill_ticks 12 1 [⟨true, 42, true, 0⟩] =
      [(42, Sig.sigterm), (42, Sig.sigkill), (42, Sig.sigkill)] ∧
    ((kill_ticks 12 1 [⟨true, 42, true, 0⟩]).countP
      (fun e => decide (e.2 = Sig.sigterm))) = 1 ∧
    ¬ ((kill_ticks 12 1 [⟨true, 42, true, 0⟩]).countP
      (fun e => decide (e.2 = Sig.sigterm))) = 2 ∧
    ((kill_ticks 12 1 [⟨true, 42, true, 0⟩]).countP
      (fun e => decide (e.2 = Sig.sigkill))) = 2 ∧
    ¬ ((kill_ticks 12 1 [⟨true, 42, true, 0⟩]).countP
      (fun e => decide (e.2 = Sig.sigkill))) = 1 := by
  refine ⟨by decide, by decide, by decide, by decide, by decide⟩

/-- A signalling pass over clients that are all eligible with killing at
most thr signals every one of them once, in table order. -/
theorem kill_round_all (thr : Nat) (s : Sig) :
    ∀ cls : List SpClient,
      (∀ cl ∈ cls, client_eligible cl = true ∧ cl.killing ≤ thr) →
      kill_round thr s cls =
        (cls.map fun cl => { cl with killing := cl.killing + 1 },
         cls.map fun cl => (cl.pid, s))
  | [] => by
    intro h
    simp [kill_round]
  | cl :: rest => by
    intro h
    obtain ⟨he, hk⟩ := h cl (List.mem_cons_self ..)
    have ih := kill_round_all thr s rest fun c hc => h c (List.mem_cons_of_mem _ hc)
    simp only [kill_round, ih]
    rw [if_pos (by simp [he]; omega)]
    simp

/-- A signalling pass over clients whose killing counters all exceed thr
signals nobody and leaves the table unchanged. -/
theorem kill_round_none (thr : Nat) (s : Sig) :
    ∀ cls : List SpClient,
      (∀ cl ∈ cls, thr < cl.killing) →
      kill_round thr s cls = (cls, [])
  | [] => by
    intro h
    simp [kill_round]
  | cl :: rest => by
    intro h
    have ih := kill_round_none thr s rest fun c hc => h c (List.mem_cons_of_mem _ hc)
    simp only [kill_round, ih]
    rw [if_neg (by simp [h cl (List.mem_cons_self ..)])]

/-- Once every client has been signalled three times (killing over 2), no
further tick sends any signal, whatever killing_pids has reached. -/
theorem kill_ticks_stuck :
    ∀ (n killing_pids : Nat) (cls : List SpClient),
      2 ≤ killing_pids →
      (∀ cl ∈ cls, 2 < cl.killing) →
      kill_ticks n killing_pids cls = []
  | 0, killing_pids, cls => by
    intro hkp h
    simp [kill_ticks]
  | n + 1, killing_pids, cls => by
    intro hkp h
    simp only [kill_ticks]
    unfold kill_pids
    split_ifs with h11 h10 h1
    · simp [kill_ticks_stuck n killing_pids cls hkp h]
    · simp [kill_ticks_stuck n (killing_pids + 1) cls (by omega) h]
    · rw [kill_round_none 2 Sig.sigkill cls h]
      simp [kill_ticks_stuck n (killing_pids + 1) cls (by omega) h]
    · omega

/-- C8 as amended: for a failing lockspace whose eligible client pids stay
alive, the supervisor tick sequence sends each of them one round of SIGTERM
(killing_pids 1), then two rounds of SIGKILL (killing_pids 2 and 3), and
thereafter nothing: the ticks at killing_pids 4..10 signal nobody, the tick
at 11 only logs stuck pids, and once killing_pids exceeds 11 kill_pids
returns without doing anything at all. -/
theorem kill_pids_escalation (cls : List SpClient) (n : Nat)
    (h : ∀ cl ∈ cls, cl.killing = 0 ∧ client_eligible cl = true) :
    kill_ticks (n + 3) 1 cls =
      cls.map (fun cl => (cl.pid, Sig.sigterm)) ++
      cls.map (fun cl => (cl.pid, Sig.sigkill)) ++
      cls.map (fun cl => (cl.pid, Sig.sigkill)) ∧
    (∀ cls2 : List SpClient, kill_pids 11 cls2 = (12, cls2, [])) ∧
    (∀ (kp : Nat) (cls2 : List SpClient), 11 < kp → kill_pids kp cls2 = (kp, cls2, [])) := by
  refine ⟨?_, ?_, ?_⟩
  · have e1 : kill_pids 1 cls =
        (2, cls.map fun cl => { cl with killing := cl.killing + 1 },
         cls.map fun cl => (cl.pid, Sig.sigterm)) := by
      unfold kill_pids
      rw [if_neg (by omega), if_neg (by omega), if_neg (by omega)]
      rw [kill_round_all 1 Sig.sigterm cls fun c hc => ⟨(h c hc).2, by
        have := (h c hc).1
        omega⟩]
    have e2 : kill_pids 2 (cls.map fun cl => { cl with killing := cl.killing + 1 }) =
        (3, (cls.map fun cl => { cl with killing := cl.killing + 1 }).map
              fun cl => { cl with killing := cl.killing + 1 },
         (cls.map fun cl => { cl with killing := cl.killing + 1 }).map
              fun cl => (cl.pid, Sig.sigkill)) := by
      unfold kill_pids
      rw [if_neg (by omega), if_neg (by omega), if_pos (by omega)]
      rw [kill_round_all 2 Sig.sigkill _ fun c hc => by
        rw [List.mem_map] at hc
        obtain ⟨orig, ho, rfl⟩ := hc
        refine ⟨(h orig ho).2, ?_⟩
        show orig.killing + 1 ≤ 2
        have := (h orig ho).1
        omega]
    have e3 : kill_pids 3 ((cls.map fun cl => { cl with killing := cl.killing + 1 }).map
              fun cl => { cl with killing := cl.killing + 1 }) =
        (4, ((cls.map fun cl => { cl with killing := cl.killing + 1 }).map
              (fun cl => { cl with killing := cl.killing + 1 })).map
              fun cl => { cl with killing := cl.killing + 1 },
         ((cls.map fun cl => { cl with killing := cl.killing + 1 }).map
              (fun cl => { cl with killing := cl.killing + 1 })).map
              fun cl => (cl.pid, Sig.sigkill)) := by
      unfold kill_pids
      rw [if_neg (by omega), if_neg (by omega), if_pos (by omega)]
      rw [kill_round_all 2 Sig.sigkill _ fun c hc => by
        simp only [List.mem_map] at hc
        obtain ⟨orig, ho, rfl⟩ := hc
        obtain ⟨orig2, ho2, rfl⟩ := ho
        refine ⟨(h orig2 ho2).2, ?_⟩
        show orig2.killing + 1 + 1 ≤ 2
        have := (h orig2 ho2).1
        omega]
    show kill_ticks (n + 1 + 1 + 1) 1 cls = _
    simp only [kill_ticks, e1, e2, e3]
    rw [kill_ticks_stuck n 4 _ (by omega) (by
      intro c hc
      simp only [List.mem_map] at hc
      obtain ⟨o1, ho1, rfl⟩ := hc
      obtain ⟨o2, ho2, rfl⟩ := ho1
      obtain ⟨o3, ho3, rfl⟩ := ho2
      show 2 < o3.killing + 1 + 1 + 1
      omega)]
    simp only [List.map_map, List.append_assoc, List.append_nil]
    rfl
  · intro cls2
    unfold kill_pids
    rw [if_neg (by omega), if_pos (by omega)]
  · intro kp cls2 hkp
    unfold kill_pids
    rw [if_pos hkp]

/-- Witness for kill_pids_escalation: two eligible clients (pids 42 and 55)
each get one SIGTERM then two SIGKILLs over five ticks, and later ticks are
inert. -/
theorem kill_pids_escalation_witness :
    kill_ticks (2 + 3) 1 [⟨true, 42, true, 0⟩, ⟨true, 55, true, 0⟩] =
      ([⟨true, 42, true, 0⟩, ⟨true, 55, true, 0⟩] : List SpClient).map
          (fun cl => (cl.pid, Sig.sigterm)) ++
      ([⟨true, 42, true, 0⟩, ⟨true, 55, true, 0⟩] : List SpClient).map
          (fun cl => (cl.pid, Sig.sigkill)) ++
      ([⟨true, 42, true, 0⟩, ⟨true, 55, true, 0⟩] : List SpClient).map
          (fun cl => (cl.pid, Sig.sigkill)) ∧
    kill_pids 11 [] = (12, [], []) ∧
    kill_pids 12 [] = (12, [], []) :=
  ⟨(kill_pids_escalation [⟨true, 42, true, 0⟩, ⟨true, 55, true, 0⟩] 2 (by decide)).1,
   (kill_pids_escalation [⟨true, 42, true, 0⟩, ⟨true, 55, true, 0⟩] 2 (by decide)).2.1 [],
   (kill_pids_escalation [⟨true, 42, true, 0⟩, ⟨true, 55, true, 0⟩] 2 (by decide)).2.2
     12 [] (by decide)⟩
